import Mathlib

/-!
Verification of the multiplexed streaming ingestion and clip-aggregation
pipeline (backend/app): the Clip Encoder, the lane processors, the Upload
Pipeline, the Annotation Batcher and the Mem0 persistence paths, shallowly
embedded from `app/core/clip_encoder.py`, `app/core/moondream_processor.py`
and `app/api/routes/video_caption.py`.

Timestamps are modelled as integers, decoded frames and image payloads as
abstract naturals, and every external collaborator call (S3 put, DB insert,
Mem0 add, Deepgram send) is recorded in an explicit event list or given a
per-call success oracle carried by the input item.
-/

set_option maxHeartbeats 1000000

namespace Pipeline

/-- A decoded video frame paired with its capture timestamp
(`(frame, timestamp)` entries of `ClipEncoder.frames`). -/
structure FrameE where
  data : Nat
  ts : Int
deriving DecidableEq

/-- The tuple returned by `ClipEncoder._encode_clip`:
`(video_bytes, start_time, end_time, clip_index, thumbnail_bytes)`.
The encoded video is abstracted as the ordered list of frames written to the
`VideoWriter`; the thumbnail as the data of the selected middle frame.
`none` fields model the empty strings / empty bytes of the
empty-buffer branch. -/
structure ClipResult where
  video : List FrameE
  start_time : Option Int
  end_time : Option Int
  clip_index : Nat
  thumbnail : Option Nat
deriving DecidableEq

/-- State of `ClipEncoder` (`app/core/clip_encoder.py`). -/
structure ClipEncoder where
  clip_duration : Int
  fps : Nat
  frames : List FrameE
  clip_start_time : Option Int
  clip_index : Nat
deriving DecidableEq

/-- `ClipEncoder.__init__`. -/
def ClipEncoder.init (dur : Int) (fps : Nat) : ClipEncoder :=
  { clip_duration := dur, fps := fps, frames := [], clip_start_time := none,
    clip_index := 0 }

/-- `ClipEncoder._encode_clip`: on an empty buffer, return an empty result and
leave the state unchanged; otherwise encode all buffered frames, take the
middle frame (index `len(frames) // 2`) as thumbnail, record the first and
last timestamps, then clear the buffer, reset the window start and increment
`clip_index`. -/
def ClipEncoder.encodeClip (e : ClipEncoder) : ClipResult × ClipEncoder :=
  if e.frames.isEmpty then
    ({ video := [], start_time := none, end_time := none,
       clip_index := e.clip_index, thumbnail := none }, e)
  else
    ({ video := e.frames,
       start_time := e.frames.head?.map FrameE.ts,
       end_time := e.frames.getLast?.map FrameE.ts,
       clip_index := e.clip_index,
       thumbnail := (e.frames.get? (e.frames.length / 2)).map FrameE.data },
     { e with frames := [], clip_start_time := none,
              clip_index := e.clip_index + 1 })

/-- `ClipEncoder.add_frame`: `img = none` models a `cv2.imdecode` failure
(frame discarded, no clip, state unchanged). Otherwise the frame is appended,
a previously empty window starts at this frame's timestamp, and a clip is
encoded exactly when `timestamp - clip_start_time >= clip_duration`. -/
def ClipEncoder.add_frame (e : ClipEncoder) (img : Option Nat) (ts : Int) :
    Option ClipResult × ClipEncoder :=
  match img with
  | none => (none, e)
  | some d =>
    let start := e.clip_start_time.getD ts
    let e1 : ClipEncoder :=
      { e with clip_start_time := some start, frames := e.frames ++ [⟨d, ts⟩] }
    if e.clip_duration ≤ ts - start then
      let p := e1.encodeClip
      (some p.1, p.2)
    else
      (none, e1)

/-- `ClipEncoder.flush`: encode the remaining frames when the buffer is
non-empty, otherwise do nothing. -/
def ClipEncoder.flush (e : ClipEncoder) : Option ClipResult × ClipEncoder :=
  if 0 < e.frames.length then
    let p := e.encodeClip
    (some p.1, p.2)
  else
    (none, e)

/-- The window-start value `add_frame` compares against for a frame arriving
at time `ts`: the stored `clip_start_time`, or `ts` itself when the window is
empty (the code then sets `clip_start_time` to this frame's timestamp). -/
def ClipEncoder.windowStart (e : ClipEncoder) (ts : Int) : Int :=
  e.clip_start_time.getD ts

/-- One recorded `add_frame` call in a run: the input `(data, timestamp)`
pair, the encoder state before, the optional emitted clip, and the state
after. -/
structure StepRec where
  inp : Nat × Int
  pre : ClipEncoder
  out : Option ClipResult
  post : ClipEncoder
deriving DecidableEq

/-- Trace of successive `add_frame` calls on successfully decoded frames. -/
def ClipEncoder.steps (e : ClipEncoder) : List (Nat × Int) → List StepRec
  | [] => []
  | (d, t) :: rest =>
    let p := e.add_frame (some d) t
    { inp := (d, t), pre := e, out := p.1, post := p.2 } :: p.2.steps rest

/-- The `clip_index` values of the clips emitted along a trace, in order. -/
def emittedIndices (tr : List StepRec) : List Nat :=
  (tr.filterMap StepRec.out).map ClipResult.clip_index

/-! ## Mem0 persistence and the Annotation Batcher
(`transcript_batch` / `caption_batch` / `mem0_batch_processor` /
`flush_mem0_batch` in `video_caption.py`). -/

/-- An entry of `transcript_batch` (appended by `on_transcript` for final
transcripts). -/
structure TranscriptEvt where
  timestamp : Int
  speaker : String
  text : String
deriving DecidableEq

/-- The `s3_metadata` dict returned by `s3_manager.upload_clip` and shared as
`current_clip_metadata`. -/
structure S3Meta where
  s3_key : String
  s3_bucket : String
  start_time : Int
  end_time : Int
deriving DecidableEq

/-- The caption dict produced by `MoondreamProcessor.process_frame`. -/
structure CaptionData where
  timestamp : Int
  description : String
  frame_number : Nat
deriving DecidableEq

/-- An entry of `caption_batch`: the caption plus the
`current_clip_metadata` snapshot taken at append time. -/
structure BatchedCaption where
  caption : CaptionData
  clip_metadata : Option S3Meta
deriving DecidableEq

/-- One call to the Mem0 long-term-memory collaborator, in call order:
`store_transcript`, the per-caption `store_caption` made inside
`process_frame`, or the batched `store_caption_with_clip`. -/
inductive Mem0Record
  | transcript (timestamp : Int) (speaker : String) (text : String)
      (session_id : String)
  | caption (c : CaptionData)
  | captionWithClip (c : CaptionData) (clip : Option S3Meta)
deriving DecidableEq

/-- The per-session state touched by the Annotation Batcher: the two batch
buffers, the ordered list of Mem0 calls made so far, and the request
counters. -/
structure BatchState where
  session_id : String
  transcript_batch : List TranscriptEvt
  caption_batch : List BatchedCaption
  records : List Mem0Record
  mem0_transcript_requests : Nat
  mem0_caption_requests : Nat
  mem0_total_transcripts : Nat
  mem0_total_captions : Nat
deriving DecidableEq

/-- `speakers = list({t["speaker"] for t in batch}); speakers[0] if
len(speakers) == 1 else "multiple"` — deduplicate the speaker labels and use
the unique one if there is exactly one. -/
def combinedSpeaker (l : List String) : String :=
  let speakers := l.dedup
  if speakers.length = 1 then speakers.headD "multiple" else "multiple"

/-- The `if transcripts: ... store_transcript(...)` block shared by
`mem0_batch_processor` and `flush_mem0_batch`: join the texts with single
spaces, attribute to the combined speaker, timestamp with the first entry,
and count the request. The batch buffers themselves are not touched. -/
def storeTranscriptBatch (s : BatchState) (tb : List TranscriptEvt) :
    BatchState :=
  match tb with
  | [] => s
  | t0 :: _ =>
    { s with
      records := s.records ++
        [Mem0Record.transcript t0.timestamp (combinedSpeaker (tb.map TranscriptEvt.speaker))
          (String.intercalate " " (tb.map TranscriptEvt.text)) s.session_id],
      mem0_transcript_requests := s.mem0_transcript_requests + 1,
      mem0_total_transcripts := s.mem0_total_transcripts + tb.length }

/-- The `if captions: ... store_caption_with_clip(...)` block shared by
`mem0_batch_processor` and `flush_mem0_batch`: join the descriptions with
`" | "`, tag with the first caption's timestamp, the last caption's frame
number and the last caption's clip metadata. -/
def storeCaptionBatch (s : BatchState) (cb : List BatchedCaption) :
    BatchState :=
  match cb with
  | [] => s
  | c0 :: _ =>
    let lastC := cb.getLast?.getD c0
    { s with
      records := s.records ++
        [Mem0Record.captionWithClip
          { timestamp := c0.caption.timestamp,
            description :=
              String.intercalate " | " (cb.map (fun c => c.caption.description)),
            frame_number := lastC.caption.frame_number }
          lastC.clip_metadata],
      mem0_caption_requests := s.mem0_caption_requests + 1,
      mem0_total_captions := s.mem0_total_captions + cb.length }

/-- One tick of `mem0_batch_processor`: snapshot and clear both buffers,
skip persistence when both snapshots are empty, otherwise push each
non-empty snapshot. -/
def mem0_batch_tick (s : BatchState) : BatchState :=
  let tp := s.transcript_batch
  let cp := s.caption_batch
  let s0 := { s with transcript_batch := [], caption_batch := [] }
  if tp.isEmpty ∧ cp.isEmpty then s0
  else storeCaptionBatch (storeTranscriptBatch s0 tp) cp

/-- `flush_mem0_batch` (teardown flush): return immediately when both
buffers are empty, otherwise push each non-empty buffer. The buffers are
read but never cleared. -/
def flush_mem0_batch (s : BatchState) : BatchState :=
  if s.transcript_batch.isEmpty ∧ s.caption_batch.isEmpty then s
  else storeCaptionBatch (storeTranscriptBatch s s.transcript_batch)
        s.caption_batch

/-! ## Audio lane (`audio_processor` in `video_caption.py`). -/

/-- A message routed to the audio queue: either the
`{"type": "audio_stream_stop"}` control message or an audio chunk.
`payload = none` models a message whose `audio_chunk`/`audio` field is
missing or empty; `send_ok = false` models `deepgram_connection.send_media`
raising for this chunk. -/
inductive AudioItem
  | stop
  | chunk (payload : Option Nat) (send_ok : Bool)
deriving DecidableEq

/-- State read and written by the audio lane: the Deepgram session handle
flags (`deepgram_connection` present, `deepgram_running`), the bytes
successfully forwarded, and the lane's counters. -/
structure AudioState where
  dg_connected : Bool
  dg_running : Bool
  dg_received : List Nat
  chunk_count : Nat
  send_errors : Nat
  terminated : Bool
deriving DecidableEq

/-- `audio_processor`: drain the audio queue; `none` is the poison pill
(break); a stop message is logged and skipped (`continue`); a chunk is
forwarded to Deepgram only when a payload is present and the session handle
is live, with send failures logged and the chunk dropped. -/
def audio_processor : AudioState → List (Option AudioItem) → AudioState
  | s, [] => s
  | s, none :: _ => { s with terminated := true }
  | s, some AudioItem.stop :: rest => audio_processor s rest
  | s, some (AudioItem.chunk payload ok) :: rest =>
    match payload with
    | some b =>
      if s.dg_connected && s.dg_running then
        if ok then
          audio_processor
            { s with dg_received := s.dg_received ++ [b],
                     chunk_count := s.chunk_count + 1 } rest
        else
          audio_processor
            { s with chunk_count := s.chunk_count + 1,
                     send_errors := s.send_errors + 1 } rest
      else audio_processor s rest
    | none => audio_processor s rest

/-! ## Message Router (`message_router` in `video_caption.py`). -/

/-- A successfully parsed inbound JSON object, reduced to the fields the
router inspects: `msg.get("type", "")`, `"audio_chunk" in msg`,
`"image" in msg`. -/
structure RawMsg where
  type_field : String
  has_audio_chunk : Bool
  has_image : Bool
deriving DecidableEq

/-- One wire event: a received text (with `none` when `json.loads` raises,
i.e. the text is not a parseable JSON object) or the remote disconnect. -/
inductive Inbound
  | text (parsed : Option RawMsg)
  | disconnect
deriving DecidableEq

/-- How the router loop ends. -/
inductive RouterOutcome
  | running
  | disconnected
  | crashed
deriving DecidableEq

/-- Router-visible state: both lane queues (entries are parsed messages,
`none` being the poison-pill sentinel) and the loop outcome. -/
structure RouterState where
  audio_q : List (Option RawMsg)
  image_q : List (Option RawMsg)
  outcome : RouterOutcome
deriving DecidableEq

/-- The router's audio classification: `msg_type in ("audio",
"audio_stream") or "audio_chunk" in msg or msg_type == "audio_stream_stop"`. -/
def isAudioMsg (m : RawMsg) : Bool :=
  m.type_field == "audio" || m.type_field == "audio_stream" ||
    m.has_audio_chunk || m.type_field == "audio_stream_stop"

/-- `message_router`: route each parsed message to the audio or image queue
(or drop it); on disconnect (`WebSocketDisconnect`), enqueue the poison pill
on both queues and re-raise; an unparseable text raises out of the loop —
only `WebSocketDisconnect` is caught — so the router ends `crashed` without
enqueuing any pill and without reading further events. -/
def message_router : RouterState → List Inbound → RouterState
  | s, [] => s
  | s, Inbound.disconnect :: _ =>
    { s with audio_q := s.audio_q ++ [none], image_q := s.image_q ++ [none],
             outcome := RouterOutcome.disconnected }
  | s, Inbound.text none :: _ => { s with outcome := RouterOutcome.crashed }
  | s, Inbound.text (some m) :: rest =>
    if isAudioMsg m then
      message_router { s with audio_q := s.audio_q ++ [some m] } rest
    else if m.has_image then
      message_router { s with image_q := s.image_q ++ [some m] } rest
    else
      message_router s rest

/-! ## Vision lane (`MoondreamProcessor.process_frame` and
`image_processor` in `video_caption.py`). -/

/-- A message routed to the image queue, together with the oracles for the
external collaborators touched while handling it: `image_present` is the
truthiness of `msg.get("image")`; `decode_ok` the success of
`cv2.imdecode` inside the Clip Encoder; `data` the abstract decoded frame;
`ts` the `datetime.now()` taken for the frame; `vision_answer` the vision
collaborator's reply for this frame (`none` when the Moondream call or image
decode raises); `vision_ts` the timestamp taken inside `process_frame`. -/
structure ImgMsg where
  image_present : Bool
  decode_ok : Bool
  data : Nat
  ts : Int
  vision_answer : Option String
  vision_ts : Int
deriving DecidableEq

/-- State of `MoondreamProcessor`: the API-key flag, the running frame
counter, and the bounded frame history (`deque(maxlen=50)`). -/
structure MoondreamState where
  api_key : Bool
  frame_counter : Nat
  frame_history : List CaptionData
deriving DecidableEq

/-- `MoondreamProcessor.process_frame`: increment the counter, skip unless
the counter is a multiple of 10, skip when no API key is configured, return
`none` on a collaborator error; otherwise build the caption, append it to
the history and store it to Mem0 immediately (one `store_caption` call per
produced caption — `mem0_manager` is a module-level instance and is always
truthy). Returns the optional caption, the new processor state, and the
extended Mem0 call list. -/
def process_frame (mp : MoondreamState) (msg : ImgMsg)
    (records : List Mem0Record) :
    Option CaptionData × MoondreamState × List Mem0Record :=
  let mp1 := { mp with frame_counter := mp.frame_counter + 1 }
  if mp1.frame_counter % 10 ≠ 0 then (none, mp1, records)
  else if mp.api_key = false then (none, mp1, records)
  else
    match msg.vision_answer with
    | none => (none, mp1, records)
    | some ans =>
      let c : CaptionData :=
        { timestamp := msg.vision_ts, description := ans,
          frame_number := mp1.frame_counter }
      let h := mp1.frame_history ++ [c]
      (some c,
       { mp1 with frame_history := h.drop (h.length - 50) },
       records ++ [Mem0Record.caption c])

/-- State threaded through the video lane processor: the clip encoder, the
vision processor, the upload queue contents enqueued so far (`none` is the
upload sentinel), the caption batch, the Mem0 call list, the captions sent
to the client, the shared `current_clip_metadata` (read-only in this lane),
and whether the lane has terminated. -/
structure ImgPState where
  enc : ClipEncoder
  mp : MoondreamState
  uploads : List (Option ClipResult)
  caption_batch : List BatchedCaption
  records : List Mem0Record
  sent : List CaptionData
  current_clip_metadata : Option S3Meta
  terminated : Bool
deriving DecidableEq

/-- `image_processor`: drain the image queue. On the poison pill, flush the
clip encoder, enqueue any resulting clip and then the upload sentinel, and
terminate. On a message, skip it when it carries no image; otherwise feed
the frame to the clip encoder (enqueuing a completed clip for upload), then
run the vision collaborator; a produced caption is appended to the caption
batch tagged with the current clip metadata and sent to the client. -/
def image_processor : ImgPState → List (Option ImgMsg) → ImgPState
  | st, [] => st
  | st, none :: _ =>
    let p := st.enc.flush
    let flushed : List (Option ClipResult) :=
      match p.1 with
      | some r => [some r]
      | none => []
    { st with
      enc := p.2,
      uploads := st.uploads ++ flushed ++ [none],
      terminated := true }
  | st, some msg :: rest =>
    if msg.image_present = false then image_processor st rest
    else
      let p := st.enc.add_frame (if msg.decode_ok then some msg.data else none)
                 msg.ts
      let done : List (Option ClipResult) :=
        match p.1 with
        | some r => [some r]
        | none => []
      let st1 : ImgPState :=
        { st with
          enc := p.2,
          uploads := st.uploads ++ done }
      let q := process_frame st1.mp msg st1.records
      match q.1 with
      | none => image_processor { st1 with mp := q.2.1, records := q.2.2 } rest
      | some c =>
        image_processor
          { st1 with
            mp := q.2.1,
            records := q.2.2,
            caption_batch := st1.caption_batch ++
              [{ caption := c, clip_metadata := st1.current_clip_metadata }],
            sent := st1.sent ++ [c] } rest

/-! ## Upload Pipeline (`upload_processor` in `video_caption.py`,
`S3Manager.upload_clip` / `upload_thumbnail` in `app/core/s3_utils.py`,
`create_video_clip` in `app/crud.py`). -/

/-- Zero-pad a natural to four digits, as in `f"{clip_index:04d}"`. -/
def pad4 (n : Nat) : String :=
  let s := toString n
  String.mk (List.replicate (4 - s.length) '0') ++ s

/-- `f"{session_id}/clips/clip_{clip_index:04d}.mp4"`. -/
def clipKey (session_id : String) (clip_index : Nat) : String :=
  session_id ++ "/clips/clip_" ++ pad4 clip_index ++ ".mp4"

/-- `f"{session_id}/thumbnails/thumb_{clip_index:04d}.jpg"`. -/
def thumbKey (session_id : String) (clip_index : Nat) : String :=
  session_id ++ "/thumbnails/thumb_" ++ pad4 clip_index ++ ".jpg"

/-- A dequeued upload item: the `ClipResult` tuple fields, plus per-item
success oracles for the three external calls the worker makes for this item
(`s3_manager.upload_clip`, `s3_manager.upload_thumbnail`, the DB commit
inside `create_video_clip`); `false` models the call raising. -/
structure ClipItem where
  video : List FrameE
  start_time : Int
  end_time : Int
  clip_index : Nat
  thumbnail : Option Nat
  upload_clip_ok : Bool
  upload_thumb_ok : Bool
  db_ok : Bool
deriving DecidableEq

/-- A committed `VideoClip` row (`create_video_clip`). -/
structure DbClip where
  session_id : String
  clip_index : Nat
  s3_key : String
  s3_bucket : String
  start_time : Int
  end_time : Int
  thumbnail_s3_key : Option String
deriving DecidableEq

/-- State threaded through the upload worker: the configured bucket
(`s3_manager.bucket_name`, `none` when `S3_BUCKET_NAME` is unset), the
startup misconfiguration warning flag, the count of per-item
misconfiguration warnings, the S3 keys uploaded, the committed DB rows, the
count of items logged as failed, the shared `current_clip_metadata`, and
the termination flag. -/
structure UpState where
  bucket_name : Option String
  session_id : String
  startup_misconfig_warned : Bool
  item_misconfig_warnings : Nat
  uploaded_videos : List String
  uploaded_thumbs : List String
  db_clips : List DbClip
  failed_items : Nat
  current_clip_metadata : Option S3Meta
  terminated : Bool
deriving DecidableEq

/-- The startup check of `upload_processor`: warn once when no bucket is
configured, before any item is dequeued. -/
def upload_startup (s : UpState) : UpState :=
  if s.bucket_name.isNone then { s with startup_misconfig_warned := true }
  else s

/-- The body of the `upload_processor` loop for one dequeued item: skip the
item with a warning when no bucket is configured (this check runs per item);
otherwise upload the video, upload the thumbnail when present, commit the DB
row, and only then publish the new `current_clip_metadata`. A failure at any
step logs the item as failed and leaves the metadata and the DB untouched
(effects of already-completed steps remain). -/
def process_item (s : UpState) (it : ClipItem) : UpState :=
  if s.bucket_name.isNone then
    { s with item_misconfig_warnings := s.item_misconfig_warnings + 1 }
  else if it.upload_clip_ok = false then
    { s with failed_items := s.failed_items + 1 }
  else
    let key := clipKey s.session_id it.clip_index
    let meta : S3Meta :=
      { s3_key := key, s3_bucket := s.bucket_name.getD "",
        start_time := it.start_time, end_time := it.end_time }
    let s1 := { s with uploaded_videos := s.uploaded_videos ++ [key] }
    let finish : UpState → Option String → UpState := fun s2 tkey =>
      if it.db_ok = false then { s2 with failed_items := s2.failed_items + 1 }
      else
        { s2 with
          db_clips := s2.db_clips ++
            [{ session_id := s.session_id, clip_index := it.clip_index,
               s3_key := meta.s3_key, s3_bucket := meta.s3_bucket,
               start_time := it.start_time, end_time := it.end_time,
               thumbnail_s3_key := tkey }],
          current_clip_metadata := some meta }
    match it.thumbnail with
    | some _ =>
      if it.upload_thumb_ok = false then
        { s1 with failed_items := s1.failed_items + 1 }
      else
        let tkey := thumbKey s.session_id it.clip_index
        finish { s1 with uploaded_thumbs := s1.uploaded_thumbs ++ [tkey] }
          (some tkey)
    | none => finish s1 none

/-- The drain loop of `upload_processor` (`none` is the shutdown signal). -/
def upload_loop : UpState → List (Option ClipItem) → UpState
  | s, [] => s
  | s, none :: _ => { s with terminated := true }
  | s, some it :: rest => upload_loop (process_item s it) rest

/-- `upload_processor`: startup configuration check, then the drain loop. -/
def upload_processor (s : UpState) (items : List (Option ClipItem)) :
    UpState :=
  upload_loop (upload_startup s) items

/-- Number of real items the worker dequeues before the shutdown signal. -/
def realItems : List (Option ClipItem) → Nat
  | [] => 0
  | none :: _ => 0
  | some _ :: rest => realItems rest + 1

/-! ## Helper lemmas -/

lemma storeTranscriptBatch_batches (s : BatchState) (tb : List TranscriptEvt) :
    (storeTranscriptBatch s tb).transcript_batch = s.transcript_batch ∧
    (storeTranscriptBatch s tb).caption_batch = s.caption_batch ∧
    (storeTranscriptBatch s tb).session_id = s.session_id := by
  cases tb <;> simp [storeTranscriptBatch]

lemma storeCaptionBatch_batches (s : BatchState) (cb : List BatchedCaption) :
    (storeCaptionBatch s cb).transcript_batch = s.transcript_batch ∧
    (storeCaptionBatch s cb).caption_batch = s.caption_batch ∧
    (storeCaptionBatch s cb).session_id = s.session_id := by
  cases cb <;> simp [storeCaptionBatch]

lemma storeTranscriptBatch_records_length (s : BatchState)
    (tb : List TranscriptEvt) :
    (storeTranscriptBatch s tb).records.length
      = s.records.length + (if tb = [] then 0 else 1) := by
  cases tb <;> simp [storeTranscriptBatch]

lemma storeCaptionBatch_records_length (s : BatchState)
    (cb : List BatchedCaption) :
    (storeCaptionBatch s cb).records.length
      = s.records.length + (if cb = [] then 0 else 1) := by
  cases cb <;> simp [storeCaptionBatch]

lemma flush_mem0_batch_records_length (s : BatchState) :
    (flush_mem0_batch s).records.length
      = s.records.length + ((if s.transcript_batch = [] then 0 else 1) +
          (if s.caption_batch = [] then 0 else 1)) := by
  by_cases ht : s.transcript_batch = [] <;> by_cases hc : s.caption_batch = []
  all_goals
    simp [flush_mem0_batch, ht, hc, storeCaptionBatch_records_length,
      storeTranscriptBatch_records_length]

lemma flush_mem0_batch_batches (s : BatchState) :
    (flush_mem0_batch s).transcript_batch = s.transcript_batch ∧
    (flush_mem0_batch s).caption_batch = s.caption_batch := by
  by_cases h : s.transcript_batch.isEmpty ∧ s.caption_batch.isEmpty
  · simp [flush_mem0_batch, h]
  · simp only [flush_mem0_batch, if_neg h]
    have h1 := storeCaptionBatch_batches
      (storeTranscriptBatch s s.transcript_batch) s.caption_batch
    have h2 := storeTranscriptBatch_batches s s.transcript_batch
    exact ⟨h1.1.trans h2.1, h1.2.1.trans h2.2.1⟩

/-! ## C5: flush on a non-empty buffer yields all buffered frames -/

/-- C5: for every encoder state with a non-empty buffer, `flush()` returns a
`ClipResult` containing all buffered frames regardless of the elapsed
duration of the window; on an empty buffer `flush()` returns nothing and
changes no state. -/
theorem C5_flush_spec (e : ClipEncoder) :
    (e.frames ≠ [] →
      ∃ r e2, e.flush = (some r, e2) ∧ r.video = e.frames) ∧
    (e.frames = [] → e.flush = (none, e)) := by
  constructor
  · intro h
    refine ⟨e.encodeClip.1, e.encodeClip.2, ?_, ?_⟩
    · simp [ClipEncoder.flush, List.length_pos.mpr h]
    · simp [ClipEncoder.encodeClip, h]
  · intro h
    simp [ClipEncoder.flush, h]

/-- Witness for C5 at a one-frame encoder and at the fresh encoder. -/
theorem C5_flush_spec_witness :
    (∃ r e2, (ClipEncoder.mk 10 24 [⟨1, 0⟩] (some 0) 0).flush = (some r, e2) ∧
      r.video = [⟨1, 0⟩]) ∧
    (ClipEncoder.init 10 24).flush = (none, ClipEncoder.init 10 24) :=
  ⟨(C5_flush_spec (ClipEncoder.mk 10 24 [⟨1, 0⟩] (some 0) 0)).1 (by decide),
   (C5_flush_spec (ClipEncoder.init 10 24)).2 rfl⟩

/-! ## C6: sentinel handling in the video lane -/

/-- C6: when the video lane processor dequeues the shutdown sentinel it
flushes the Clip Encoder, enqueues any resulting clip onto the upload queue,
then enqueues the upload queue's own sentinel, then terminates; so a final
flushed clip always precedes the upload sentinel. -/
theorem C6_video_sentinel (st : ImgPState) (rest : List (Option ImgMsg)) :
    (image_processor st (none :: rest)).uploads
      = st.uploads ++
        (match (st.enc.flush).1 with
          | some r => [some r]
          | none => []) ++ [none] ∧
    (image_processor st (none :: rest)).terminated = true ∧
    (∀ r, (st.enc.flush).1 = some r →
      (image_processor st (none :: rest)).uploads
        = st.uploads ++ [some r, none]) := by
  refine ⟨?_, ?_, ?_⟩
  · simp [image_processor]
  · simp [image_processor]
  · intro r hr
    simp [image_processor, hr]

/-- Witness for C6 at a one-frame encoder whose flush yields a clip. -/
theorem C6_video_sentinel_witness :
    (image_processor
        ⟨ClipEncoder.mk 10 24 [⟨1, 0⟩] (some 0) 0, ⟨true, 0, []⟩, [], [], [],
          [], none, false⟩ [none]).uploads
      = [some ⟨[⟨1, 0⟩], some 0, some 0, 0, some 1⟩, none] := by
  have h := (C6_video_sentinel
    ⟨ClipEncoder.mk 10 24 [⟨1, 0⟩] (some 0) 0, ⟨true, 0, []⟩, [], [], [],
      [], none, false⟩ []).2.2 ⟨[⟨1, 0⟩], some 0, some 0, 0, some 1⟩ (by decide)
  simpa using h

/-! ## C2: stop-stream control message in the audio lane -/

/-- C2 counterexample: with an active transcription session
(`deepgram_connection` set, `deepgram_running = true`), dequeuing the
stop-stream message does NOT end the session — both session flags are still
live afterwards, refuting that the processor "ends that transcription
session". -/
theorem C2_counterexample :
    ¬ ((audio_processor ⟨true, true, [], 0, 0, false⟩
          [some AudioItem.stop]).dg_running = false ∨
       (audio_processor ⟨true, true, [], 0, 0, false⟩
          [some AudioItem.stop]).dg_connected = false) := by
  decide

/-- C2 amended: when the audio lane processor dequeues a stop-stream control
message, it only logs and continues draining the audio queue: the message is
a no-op on the lane state, the transcription session is left untouched (it
is not ended), and the processor does not terminate. -/
theorem C2_stop_spec (s : AudioState) (rest : List (Option AudioItem)) :
    audio_processor s (some AudioItem.stop :: rest) = audio_processor s rest ∧
    (audio_processor s [some AudioItem.stop]).dg_running = s.dg_running ∧
    (audio_processor s [some AudioItem.stop]).dg_connected = s.dg_connected ∧
    (audio_processor s [some AudioItem.stop]).terminated = s.terminated := by
  refine ⟨?_, ?_, ?_, ?_⟩ <;> simp [audio_processor]

/-! ## C3: malformed inbound messages and the Message Router -/

/-- C3 counterexample: a malformed (unparseable) inbound text crashes the
router loop — the router ends in the crashed outcome and a well-formed image
message arriving right after it is never routed, refuting that a malformed
message is dropped while the router continues receiving. -/
theorem C3_counterexample :
    (message_router ⟨[], [], RouterOutcome.running⟩
        [Inbound.text none, Inbound.text (some ⟨"", false, true⟩)]).outcome
      = RouterOutcome.crashed ∧
    ¬ ((message_router ⟨[], [], RouterOutcome.running⟩
          [Inbound.text none, Inbound.text (some ⟨"", false, true⟩)]).image_q
        = [some ⟨"", false, true⟩]) := by
  decide

/-- C3 amended: a malformed inbound message raises an uncaught parse error
that terminates the router at once: no shutdown sentinel is enqueued on
either lane queue, both queues are left exactly as they were, and no
subsequent wire event is received. -/
theorem C3_malformed_spec (s : RouterState) (rest : List Inbound) :
    message_router s (Inbound.text none :: rest)
      = { s with outcome := RouterOutcome.crashed } := by
  simp [message_router]

/-! ## C1: the teardown flush is not idempotent -/

/-- C1 counterexample: starting from a state with one batched transcript and
no prior Mem0 calls, running the teardown flush twice in a row makes two
Mem0 persistence calls, refuting "at most one real persistence call" — the
flush never clears the batch buffers, so the second call repeats the push. -/
theorem C1_counterexample :
    ¬ ((flush_mem0_batch (flush_mem0_batch
          ⟨"s", [⟨0, "Speaker 0", "hi"⟩], [], [], 0, 0, 0, 0⟩)).records.length
        ≤ 1) := by
  decide

/-- C1 amended: the teardown flush performs one persistence call per
non-empty batch and leaves both batch buffers unchanged (it does not clear
them), so calling it twice in a row performs twice that many persistence
calls; it is a no-op only when both batches are already empty. -/
theorem C1_flush_spec (s : BatchState) :
    (flush_mem0_batch s).transcript_batch = s.transcript_batch ∧
    (flush_mem0_batch s).caption_batch = s.caption_batch ∧
    (s.transcript_batch = [] → s.caption_batch = [] →
      flush_mem0_batch s = s) ∧
    (flush_mem0_batch (flush_mem0_batch s)).records.length
      = s.records.length +
        2 * ((if s.transcript_batch = [] then 0 else 1) +
             (if s.caption_batch = [] then 0 else 1)) := by
  refine ⟨(flush_mem0_batch_batches s).1, (flush_mem0_batch_batches s).2,
    ?_, ?_⟩
  · intro ht hc
    simp [flush_mem0_batch, ht, hc]
  · have h1 := flush_mem0_batch_records_length (flush_mem0_batch s)
    rw [(flush_mem0_batch_batches s).1, (flush_mem0_batch_batches s).2] at h1
    rw [h1, flush_mem0_batch_records_length s]
    ring

/-- Witness for C1 at the empty-batch state (where the flush is a no-op)
and the conclusions of the amended statement there. -/
theorem C1_flush_spec_witness :
    flush_mem0_batch ⟨"s", [], [], [], 0, 0, 0, 0⟩
      = ⟨"s", [], [], [], 0, 0, 0, 0⟩ :=
  (C1_flush_spec ⟨"s", [], [], [], 0, 0, 0, 0⟩).2.2.1 rfl rfl

/-! ## C7: unconfigured blob store -/

lemma upload_loop_unconfigured (items : List (Option ClipItem)) :
    ∀ s : UpState, s.bucket_name = none →
      (upload_loop s items).uploaded_videos = s.uploaded_videos ∧
      (upload_loop s items).uploaded_thumbs = s.uploaded_thumbs ∧
      (upload_loop s items).db_clips = s.db_clips ∧
      (upload_loop s items).current_clip_metadata = s.current_clip_metadata ∧
      (upload_loop s items).startup_misconfig_warned
        = s.startup_misconfig_warned ∧
      (upload_loop s items).item_misconfig_warnings
        = s.item_misconfig_warnings + realItems items := by
  induction items with
  | nil => intro s h; simp [upload_loop, realItems]
  | cons it rest ih =>
    intro s h
    match it with
    | none => simp [upload_loop, realItems]
    | some it =>
      have hstep : process_item s it
          = { s with item_misconfig_warnings :=
                s.item_misconfig_warnings + 1 } := by
        simp [process_item, h]
      have hb : (process_item s it).bucket_name = none := by
        rw [hstep]; exact h
      have := ih (process_item s it) hb
      rw [hstep] at this
      simp only [upload_loop, realItems, hstep]
      refine ⟨?_, ?_, ?_, ?_, ?_, ?_⟩ <;> simp_all
      omega

/-- C7 counterexample: with no bucket configured, the worker's
misconfiguration check runs again for every dequeued item (each item logging
its own skip warning) — after two items there are two per-item checks, not
zero — refuting "checked once at startup, not per item". -/
theorem C7_counterexample :
    ¬ ((upload_processor ⟨none, "s", false, 0, [], [], [], 0, none, false⟩
          [some ⟨[⟨1, 0⟩], 0, 1, 0, some 1, true, true, true⟩,
           some ⟨[⟨2, 1⟩], 1, 2, 1, some 2, true, true, true⟩,
           none]).item_misconfig_warnings = 0) := by
  decide

/-- C7 amended: if no blob-storage bucket is configured at session start,
the misconfiguration is warned once at startup AND re-checked for every
dequeued item — each item being synchronously dropped with its own warning —
and no upload, thumbnail upload or relational write is ever attempted and
the shared clip metadata never changes. -/
theorem C7_unconfigured_spec (s : UpState) (items : List (Option ClipItem))
    (h : s.bucket_name = none) :
    (upload_processor s items).uploaded_videos = s.uploaded_videos ∧
    (upload_processor s items).uploaded_thumbs = s.uploaded_thumbs ∧
    (upload_processor s items).db_clips = s.db_clips ∧
    (upload_processor s items).current_clip_metadata
      = s.current_clip_metadata ∧
    (upload_processor s items).startup_misconfig_warned = true ∧
    (upload_processor s items).item_misconfig_warnings
      = s.item_misconfig_warnings + realItems items := by
  have hs : upload_startup s
      = { s with startup_misconfig_warned := true } := by
    simp [upload_startup, h]
  have hb : (upload_startup s).bucket_name = none := by rw [hs]; exact h
  have hmain := upload_loop_unconfigured items (upload_startup s) hb
  rw [hs] at hmain
  simpa [upload_processor, hs] using hmain

/-- Witness for C7: two real items against an unconfigured store. -/
theorem C7_unconfigured_spec_witness :
    (upload_processor ⟨none, "s", false, 0, [], [], [], 0, none, false⟩
        [some ⟨[⟨1, 0⟩], 0, 1, 0, some 1, true, true, true⟩,
         some ⟨[⟨2, 1⟩], 1, 2, 1, some 2, true, true, true⟩,
         none]).db_clips = [] ∧
    (upload_processor ⟨none, "s", false, 0, [], [], [], 0, none, false⟩
        [some ⟨[⟨1, 0⟩], 0, 1, 0, some 1, true, true, true⟩,
         some ⟨[⟨2, 1⟩], 1, 2, 1, some 2, true, true, true⟩,
         none]).item_misconfig_warnings = 2 := by
  have h := C7_unconfigured_spec
    ⟨none, "s", false, 0, [], [], [], 0, none, false⟩
    [some ⟨[⟨1, 0⟩], 0, 1, 0, some 1, true, true, true⟩,
     some ⟨[⟨2, 1⟩], 1, 2, 1, some 2, true, true, true⟩,
     none] rfl
  exact ⟨h.2.2.1, by rw [h.2.2.2.2.2]; rfl⟩

/-! ## C8: shared clip metadata is published only after full success -/

/-- C8: with a bucket configured, the shared `current_clip_metadata` is
updated (and the relational row committed) only when the video upload, the
thumbnail upload (when a thumbnail is present) and the DB commit all
succeed; if any of the three steps fails, the metadata keeps its previous
value, no row is committed, and the item is counted as failed and skipped. -/
theorem C8_metadata_spec (s : UpState) (it : ClipItem)
    (h : s.bucket_name ≠ none) :
    (it.upload_clip_ok = true →
      (it.thumbnail.isSome = true → it.upload_thumb_ok = true) →
      it.db_ok = true →
      (process_item s it).current_clip_metadata
        = some ⟨clipKey s.session_id it.clip_index, s.bucket_name.getD "",
            it.start_time, it.end_time⟩ ∧
      (process_item s it).db_clips
        = s.db_clips ++
          [⟨s.session_id, it.clip_index, clipKey s.session_id it.clip_index,
            s.bucket_name.getD "", it.start_time, it.end_time,
            it.thumbnail.map (fun _ => thumbKey s.session_id it.clip_index)⟩] ∧
      (process_item s it).failed_items = s.failed_items) ∧
    ((it.upload_clip_ok = false ∨
        (it.thumbnail.isSome = true ∧ it.upload_thumb_ok = false) ∨
        it.db_ok = false) →
      (process_item s it).current_clip_metadata = s.current_clip_metadata ∧
      (process_item s it).db_clips = s.db_clips ∧
      (process_item s it).failed_items = s.failed_items + 1) := by
  have hb : s.bucket_name.isNone = false := by
    cases hbn : s.bucket_name with
    | none => exact absurd hbn h
    | some b => rfl
  constructor
  · intro h1 h2 h3
    cases ht : it.thumbnail with
    | none =>
      simp [process_item, hb, h1, h3, ht]
    | some tb =>
      have h2t : it.upload_thumb_ok = true := h2 (by simp [ht])
      simp [process_item, hb, h1, h2t, h3, ht]
  · intro hfail
    rcases hfail with h1 | ⟨ht, h2⟩ | h3
    · simp [process_item, hb, h1]
    · cases hup : it.upload_clip_ok with
      | false => simp [process_item, hb, hup]
      | true =>
        rcases Option.isSome_iff_exists.mp ht with ⟨tb, htb⟩
        simp [process_item, hb, hup, htb, h2]
    · cases hup : it.upload_clip_ok with
      | false => simp [process_item, hb, hup]
      | true =>
        cases htb : it.thumbnail with
        | none => simp [process_item, hb, hup, htb, h3]
        | some tb =>
          cases h2 : it.upload_thumb_ok with
          | false => simp [process_item, hb, hup, htb, h2]
          | true => simp [process_item, hb, hup, htb, h2, h3]

/-- Witness for C8: a configured worker state, one fully-successful item and
one item whose DB commit fails. -/
theorem C8_metadata_spec_witness :
    (process_item ⟨some "b", "s", false, 0, [], [], [], 0, none, false⟩
        ⟨[⟨1, 0⟩], 0, 1, 0, some 1, true, true, true⟩).current_clip_metadata
      = some ⟨"s/clips/clip_0000.mp4", "b", 0, 1⟩ ∧
    (process_item ⟨some "b", "s", false, 0, [], [], [], 0, none, false⟩
        ⟨[⟨1, 0⟩], 0, 1, 0, some 1, true, true, false⟩).current_clip_metadata
      = none ∧
    (process_item ⟨some "b", "s", false, 0, [], [], [], 0, none, false⟩
        ⟨[⟨1, 0⟩], 0, 1, 0, some 1, true, true, false⟩).failed_items = 1 := by
  have hok := (C8_metadata_spec
    ⟨some "b", "s", false, 0, [], [], [], 0, none, false⟩
    ⟨[⟨1, 0⟩], 0, 1, 0, some 1, true, true, true⟩ (by decide)).1 rfl
    (fun _ => rfl) rfl
  have hfail := (C8_metadata_spec
    ⟨some "b", "s", false, 0, [], [], [], 0, none, false⟩
    ⟨[⟨1, 0⟩], 0, 1, 0, some 1, true, true, false⟩ (by decide)).2
    (Or.inr (Or.inr rfl))
  refine ⟨?_, hfail.1, hfail.2.2⟩
  rw [hok.1]
  rfl

/-! ## C9: shape of the batched Mem0 records -/

lemma dedup_all_eq {α : Type} [DecidableEq α] (x : α) :
    ∀ l : List α, (∀ y ∈ l, y = x) → (x :: l).dedup = [x]
  | [], _ => by simp
  | y :: l2, h => by
    have hy : y = x := h y (by simp)
    have hmem : x ∈ y :: l2 := by simp [hy]
    rw [List.dedup_cons_of_mem hmem, hy]
    exact dedup_all_eq x l2 (fun z hz => h z (by simp [hz]))

lemma combinedSpeaker_cons (x : String) (l : List String) :
    combinedSpeaker (x :: l)
      = if l.all (fun y => y == x) then x else "multiple" := by
  by_cases h : ∀ y ∈ l, y = x
  · have hd : (x :: l).dedup = [x] := dedup_all_eq x l h
    have hall : l.all (fun y => y == x) = true := by
      rw [List.all_eq_true]
      intro y hy
      exact beq_iff_eq.mpr (h y hy)
    simp [combinedSpeaker, hd, hall]
  · have hall : l.all (fun y => y == x) = false := by
      rw [Bool.eq_false_iff]
      intro hc
      exact h (by simpa using hc)
    have hlen : ¬ ((x :: l).dedup.length = 1) := by
      intro hlen1
      obtain ⟨a, ha⟩ := List.length_eq_one.mp hlen1
      have hx : x = a := by
        have hm : x ∈ (x :: l).dedup := List.mem_dedup.mpr (by simp)
        rw [ha] at hm
        simpa using hm
      refine h (fun y hy => ?_)
      have hm : y ∈ (x :: l).dedup := List.mem_dedup.mpr (by simp [hy])
      rw [ha] at hm
      simp at hm
      rw [hm, ← hx]
    simp [combinedSpeaker, hlen, hall]

lemma storeCaptionBatch_records_mono (s : BatchState)
    (cb : List BatchedCaption) :
    ∀ r ∈ s.records, r ∈ (storeCaptionBatch s cb).records := by
  cases cb with
  | nil => intro r hr; simpa [storeCaptionBatch] using hr
  | cons c0 cs =>
    intro r hr
    simp only [storeCaptionBatch, List.mem_append]
    exact Or.inl hr

/-- C9: on a timer flush with a non-empty transcript batch, the persisted
transcript record's text is the batched texts joined with single spaces,
attributed to the batch's single speaker when only one distinct speaker
occurs and to the sentinel "multiple" otherwise, and timestamped with the
first entry; with a non-empty caption batch, the persisted caption record's
description is the batched descriptions joined with " | ", tagged with the
first caption's timestamp, the last caption's frame number and the last
caption's clip metadata; when both batches are empty no persistence call is
made; and the tick always clears both batches. -/
theorem C9_batch_tick_spec (s : BatchState) :
    (s.transcript_batch = [] → s.caption_batch = [] →
      (mem0_batch_tick s).records = s.records) ∧
    (mem0_batch_tick s).transcript_batch = [] ∧
    (mem0_batch_tick s).caption_batch = [] ∧
    (∀ t0 ts, s.transcript_batch = t0 :: ts →
      Mem0Record.transcript t0.timestamp
        (if (ts.map TranscriptEvt.speaker).all (fun y => y == t0.speaker)
          then t0.speaker else "multiple")
        (String.intercalate " " ((t0 :: ts).map TranscriptEvt.text))
        s.session_id
        ∈ (mem0_batch_tick s).records) ∧
    (∀ c0 cs, s.caption_batch = c0 :: cs →
      Mem0Record.captionWithClip
        ⟨c0.caption.timestamp,
          String.intercalate " | "
            ((c0 :: cs).map (fun c => c.caption.description)),
          ((c0 :: cs).getLast (List.cons_ne_nil c0 cs)).caption.frame_number⟩
        (((c0 :: cs).getLast (List.cons_ne_nil c0 cs)).clip_metadata)
        ∈ (mem0_batch_tick s).records) := by
  refine ⟨?_, ?_, ?_, ?_, ?_⟩
  · intro ht hc
    simp [mem0_batch_tick, ht, hc]
  · by_cases hg : s.transcript_batch.isEmpty ∧ s.caption_batch.isEmpty
    · simp [mem0_batch_tick, hg]
    · simp only [mem0_batch_tick, if_neg hg]
      rw [(storeCaptionBatch_batches _ _).1, (storeTranscriptBatch_batches _ _).1]
  · by_cases hg : s.transcript_batch.isEmpty ∧ s.caption_batch.isEmpty
    · simp [mem0_batch_tick, hg]
    · simp only [mem0_batch_tick, if_neg hg]
      rw [(storeCaptionBatch_batches _ _).2.1,
        (storeTranscriptBatch_batches _ _).2.1]
  · intro t0 ts htb
    have hg : ¬ (s.transcript_batch.isEmpty ∧ s.caption_batch.isEmpty) := by
      simp [htb]
    simp only [mem0_batch_tick, if_neg hg]
    apply storeCaptionBatch_records_mono
    rw [htb]
    simp only [storeTranscriptBatch, List.map_cons, combinedSpeaker_cons,
      List.mem_append, List.mem_singleton]
    exact Or.inr trivial
  · intro c0 cs hcb
    have hg : ¬ (s.transcript_batch.isEmpty ∧ s.caption_batch.isEmpty) := by
      simp [hcb]
    simp only [mem0_batch_tick, if_neg hg]
    rw [hcb]
    have hlast : (c0 :: cs).getLast?.getD c0
        = (c0 :: cs).getLast (List.cons_ne_nil c0 cs) := by
      rw [List.getLast?_eq_getLast (c0 :: cs) (List.cons_ne_nil c0 cs)]
      rfl
    simp only [storeCaptionBatch, hlast, List.mem_append, List.mem_singleton]
    exact Or.inr trivial

/-- Witness for C9: a two-speaker transcript batch and a two-caption batch;
the transcript record is attributed to "multiple" and the caption record
joins both descriptions with " | ", keeping the last caption's frame number
and clip metadata. -/
theorem C9_batch_tick_spec_witness :
    Mem0Record.transcript 0 "multiple" "hi yo" "s"
      ∈ (mem0_batch_tick ⟨"s", [⟨0, "A", "hi"⟩, ⟨1, "B", "yo"⟩],
          [⟨⟨5, "cat", 10⟩, none⟩, ⟨⟨6, "dog", 20⟩, some ⟨"k", "b", 0, 1⟩⟩],
          [], 0, 0, 0, 0⟩).records ∧
    Mem0Record.captionWithClip ⟨5, "cat | dog", 20⟩ (some ⟨"k", "b", 0, 1⟩)
      ∈ (mem0_batch_tick ⟨"s", [⟨0, "A", "hi"⟩, ⟨1, "B", "yo"⟩],
          [⟨⟨5, "cat", 10⟩, none⟩, ⟨⟨6, "dog", 20⟩, some ⟨"k", "b", 0, 1⟩⟩],
          [], 0, 0, 0, 0⟩).records := by
  have ht := (C9_batch_tick_spec ⟨"s", [⟨0, "A", "hi"⟩, ⟨1, "B", "yo"⟩],
      [⟨⟨5, "cat", 10⟩, none⟩, ⟨⟨6, "dog", 20⟩, some ⟨"k", "b", 0, 1⟩⟩],
      [], 0, 0, 0, 0⟩).2.2.2.1 ⟨0, "A", "hi"⟩ [⟨1, "B", "yo"⟩] rfl
  have hc := (C9_batch_tick_spec ⟨"s", [⟨0, "A", "hi"⟩, ⟨1, "B", "yo"⟩],
      [⟨⟨5, "cat", 10⟩, none⟩, ⟨⟨6, "dog", 20⟩, some ⟨"k", "b", 0, 1⟩⟩],
      [], 0, 0, 0, 0⟩).2.2.2.2 ⟨⟨5, "cat", 10⟩, none⟩
      [⟨⟨6, "dog", 20⟩, some ⟨"k", "b", 0, 1⟩⟩] rfl
  constructor
  · simpa using ht
  · simpa using hc

/-! ## C10: a produced caption is persisted twice -/

lemma storeCaptionBatch_last_mem (s : BatchState) (c0 : BatchedCaption)
    (cs : List BatchedCaption) :
    ∃ t fn cm,
      Mem0Record.captionWithClip
        ⟨t, String.intercalate " | "
            ((c0 :: cs).map (fun c => c.caption.description)), fn⟩ cm
        ∈ (storeCaptionBatch s (c0 :: cs)).records := by
  refine ⟨c0.caption.timestamp,
    ((c0 :: cs).getLast?.getD c0).caption.frame_number,
    ((c0 :: cs).getLast?.getD c0).clip_metadata, ?_⟩
  simp [storeCaptionBatch]

lemma tick_captionRecord_mem (b : BatchState) (c0 : BatchedCaption)
    (cs : List BatchedCaption) (hb : b.caption_batch = c0 :: cs) :
    ∃ t fn cm,
      Mem0Record.captionWithClip
        ⟨t, String.intercalate " | "
            (b.caption_batch.map (fun c => c.caption.description)), fn⟩ cm
        ∈ (mem0_batch_tick b).records := by
  have hg : ¬ (b.transcript_batch.isEmpty ∧ b.caption_batch.isEmpty) := by
    simp [hb]
  simp only [mem0_batch_tick, if_neg hg]
  rw [hb]
  exact storeCaptionBatch_last_mem _ c0 cs

/-- C10: a caption produced by the vision processor is persisted to
long-term memory twice — `process_frame` makes one immediate individual
`store_caption` call for it, the caption is also appended to the caption
batch, and the next batch flush makes a second call whose combined
description contains this caption's description. -/
theorem C10_double_persist (st : ImgPState) (msg : ImgMsg) (ans : String)
    (h1 : msg.image_present = true)
    (h2 : (st.mp.frame_counter + 1) % 10 = 0)
    (h3 : st.mp.api_key = true)
    (h4 : msg.vision_answer = some ans) :
    ((image_processor st [some msg]).records
      = st.records ++
        [Mem0Record.caption ⟨msg.vision_ts, ans, st.mp.frame_counter + 1⟩]) ∧
    ((image_processor st [some msg]).caption_batch
      = st.caption_batch ++
        [⟨⟨msg.vision_ts, ans, st.mp.frame_counter + 1⟩,
          st.current_clip_metadata⟩]) ∧
    (∀ b : BatchState,
      b.caption_batch = (image_processor st [some msg]).caption_batch →
      ∃ descs t fn cm,
        ans ∈ descs ∧
        Mem0Record.captionWithClip
          ⟨t, String.intercalate " | " descs, fn⟩ cm
          ∈ (mem0_batch_tick b).records) := by
  have hrec : (image_processor st [some msg]).records
      = st.records ++
        [Mem0Record.caption ⟨msg.vision_ts, ans, st.mp.frame_counter + 1⟩] := by
    simp [image_processor, process_frame, h1, h2, h3, h4]
  have hcap : (image_processor st [some msg]).caption_batch
      = st.caption_batch ++
        [⟨⟨msg.vision_ts, ans, st.mp.frame_counter + 1⟩,
          st.current_clip_metadata⟩] := by
    simp [image_processor, process_frame, h1, h2, h3, h4]
  refine ⟨hrec, hcap, ?_⟩
  intro b hb
  rw [hcap] at hb
  rcases hcb : b.caption_batch with _ | ⟨c0, cs⟩
  · rw [hcb] at hb
    exact absurd hb.symm (List.append_ne_nil_of_right_ne_nil _ (by simp))
  · obtain ⟨t, fn, cm, hm⟩ := tick_captionRecord_mem b c0 cs hcb
    refine ⟨b.caption_batch.map (fun c => c.caption.description), t, fn, cm,
      ?_, hm⟩
    rw [hb]
    simp

/-- Witness for C10: a processor one frame short of the throttle boundary,
with an API key and a successful vision reply. -/
theorem C10_double_persist_witness :
    (image_processor
        ⟨ClipEncoder.init 10 24, ⟨true, 9, []⟩, [], [], [], [], none, false⟩
        [some ⟨true, true, 5, 0, some "a cat", 7⟩]).records
      = [Mem0Record.caption ⟨7, "a cat", 10⟩] := by
  have h := (C10_double_persist
    ⟨ClipEncoder.init 10 24, ⟨true, 9, []⟩, [], [], [], [], none, false⟩
    ⟨true, true, 5, 0, some "a cat", 7⟩ "a cat" rfl rfl rfl rfl).1
  simpa using h

/-! ## C4: clip emission along an `add_frame` run -/

lemma add_frame_emit_eq (e : ClipEncoder) (d : Nat) (ts : Int)
    (hc : e.clip_duration ≤ ts - e.windowStart ts) :
    e.add_frame (some d) ts
      = (some
          ⟨e.frames ++ [(⟨d, ts⟩ : FrameE)],
            ((e.frames ++ [(⟨d, ts⟩ : FrameE)]).head?).map FrameE.ts,
            ((e.frames ++ [(⟨d, ts⟩ : FrameE)]).getLast?).map FrameE.ts,
            e.clip_index,
            ((e.frames ++ [(⟨d, ts⟩ : FrameE)]).get?
              ((e.frames ++ [(⟨d, ts⟩ : FrameE)]).length / 2)).map
              FrameE.data⟩,
         { e with frames := [], clip_start_time := none,
                  clip_index := e.clip_index + 1 }) := by
  have hne : (e.frames ++ [(⟨d, ts⟩ : FrameE)]).isEmpty = false := by
    simp
  rw [ClipEncoder.windowStart] at hc
  simp [ClipEncoder.add_frame, hc, ClipEncoder.encodeClip, hne]

lemma add_frame_noemit_eq (e : ClipEncoder) (d : Nat) (ts : Int)
    (hc : ¬ (e.clip_duration ≤ ts - e.windowStart ts)) :
    e.add_frame (some d) ts
      = (none, { e with clip_start_time := some (e.windowStart ts),
                        frames := e.frames ++ [⟨d, ts⟩] }) := by
  rw [ClipEncoder.windowStart] at hc
  simp [ClipEncoder.add_frame, hc, ClipEncoder.windowStart]

lemma add_frame_preserves_duration (e : ClipEncoder) (d : Nat) (ts : Int) :
    (e.add_frame (some d) ts).2.clip_duration = e.clip_duration := by
  by_cases hc : e.clip_duration ≤ ts - e.windowStart ts
  · rw [add_frame_emit_eq e d ts hc]
  · rw [add_frame_noemit_eq e d ts hc]

lemma steps_clip_duration (inputs : List (Nat × Int)) :
    ∀ e : ClipEncoder, ∀ s ∈ e.steps inputs,
      s.pre.clip_duration = e.clip_duration := by
  induction inputs with
  | nil => intro e s hs; simp [ClipEncoder.steps] at hs
  | cons dt rest ih =>
    intro e s hs
    obtain ⟨d, t⟩ := dt
    simp only [ClipEncoder.steps, List.mem_cons] at hs
    rcases hs with rfl | hs
    · rfl
    · rw [ih _ s hs, add_frame_preserves_duration]

lemma steps_spec (inputs : List (Nat × Int)) :
    ∀ e : ClipEncoder, ∀ s ∈ e.steps inputs,
      (s.out.isSome = true
        ↔ s.pre.clip_duration ≤ s.inp.2 - s.pre.windowStart s.inp.2) ∧
      (∀ r, s.out = some r →
        r.clip_index = s.pre.clip_index ∧
        r.video = s.pre.frames ++ [⟨s.inp.1, s.inp.2⟩] ∧
        s.post.frames = [] ∧
        s.post.clip_index = s.pre.clip_index + 1) ∧
      (s.out = none →
        s.post.frames = s.pre.frames ++ [⟨s.inp.1, s.inp.2⟩] ∧
        s.post.clip_index = s.pre.clip_index) := by
  induction inputs with
  | nil => intro e s hs; simp [ClipEncoder.steps] at hs
  | cons dt rest ih =>
    intro e s hs
    obtain ⟨d, t⟩ := dt
    simp only [ClipEncoder.steps, List.mem_cons] at hs
    rcases hs with rfl | hs
    · by_cases hc : e.clip_duration ≤ t - e.windowStart t
      · have h1 := add_frame_emit_eq e d t hc
        refine ⟨by simp [h1, hc], ?_, by simp [h1]⟩
        intro r hr
        simp only [h1] at hr
        cases hr
        simp [h1]
      · have h1 := add_frame_noemit_eq e d t hc
        refine ⟨by simp [h1, hc], ?_, by simp [h1]⟩
        intro r hr
        simp [h1] at hr
    · exact ih _ s hs

lemma emittedIndices_cons (s : StepRec) (tr : List StepRec) :
    emittedIndices (s :: tr)
      = (match s.out with
          | some r => [r.clip_index]
          | none => []) ++ emittedIndices tr := by
  cases h : s.out <;> simp [emittedIndices, List.filterMap_cons, h]

lemma emittedIndices_steps (inputs : List (Nat × Int)) :
    ∀ e : ClipEncoder,
      ∃ n, emittedIndices (e.steps inputs) = List.range' e.clip_index n := by
  induction inputs with
  | nil => intro e; exact ⟨0, by simp [ClipEncoder.steps, emittedIndices]⟩
  | cons dt rest ih =>
    intro e
    obtain ⟨d, t⟩ := dt
    by_cases hc : e.clip_duration ≤ t - e.windowStart t
    · have h1 := add_frame_emit_eq e d t hc
      obtain ⟨n, hn⟩ := ih (e.add_frame (some d) t).2
      refine ⟨n + 1, ?_⟩
      simp only [ClipEncoder.steps, emittedIndices_cons, hn]
      rw [List.range'_succ]
      simp [h1]
    · have h1 := add_frame_noemit_eq e d t hc
      obtain ⟨n, hn⟩ := ih (e.add_frame (some d) t).2
      refine ⟨n, ?_⟩
      simp only [ClipEncoder.steps, emittedIndices_cons, hn]
      simp [h1]

/-- C4: along any run of `add_frame` on decoded frames from a fresh encoder,
a call emits a `ClipResult` exactly when the frame's timestamp minus the
current window-start timestamp is at least `clip_duration`; an emitted
result carries the pre-call `clip_index` and exactly the frames appended
since the previous reset (the pre-call buffer plus this frame), after which
the buffer resets and the index increments; and the sequence of emitted
`clip_index` values is exactly `0, 1, 2, ...`. -/
theorem C4_add_frame_spec (dur : Int) (fps : Nat)
    (inputs : List (Nat × Int)) :
    (∀ s ∈ (ClipEncoder.init dur fps).steps inputs,
      (s.out.isSome = true ↔ dur ≤ s.inp.2 - s.pre.windowStart s.inp.2) ∧
      (∀ r, s.out = some r →
        r.clip_index = s.pre.clip_index ∧
        r.video = s.pre.frames ++ [⟨s.inp.1, s.inp.2⟩] ∧
        s.post.frames = [] ∧
        s.post.clip_index = s.pre.clip_index + 1) ∧
      (s.out = none →
        s.post.frames = s.pre.frames ++ [⟨s.inp.1, s.inp.2⟩] ∧
        s.post.clip_index = s.pre.clip_index)) ∧
    emittedIndices ((ClipEncoder.init dur fps).steps inputs)
      = List.range
          (emittedIndices ((ClipEncoder.init dur fps).steps inputs)).length := by
  constructor
  · intro s hs
    have hd := steps_clip_duration inputs (ClipEncoder.init dur fps) s hs
    have h := steps_spec inputs (ClipEncoder.init dur fps) s hs
    rw [hd] at h
    exact h
  · obtain ⟨n, hn⟩ := emittedIndices_steps inputs (ClipEncoder.init dur fps)
    rw [hn]
    have h0 : (ClipEncoder.init dur fps).clip_index = 0 := rfl
    rw [h0, List.length_range', List.range_eq_range']

/-- Witness for C4: three frames at 0, 5 and 10 seconds against a 10-second
window; the third call emits clip 0 containing all three frames. -/
theorem C4_add_frame_spec_witness :
    ((⟨(3, 10), ⟨10, 24, [⟨1, 0⟩, ⟨2, 5⟩], some 0, 0⟩,
        some ⟨[⟨1, 0⟩, ⟨2, 5⟩, ⟨3, 10⟩], some 0, some 10, 0, some 2⟩,
        ⟨10, 24, [], none, 1⟩⟩ : StepRec).out.isSome = true) ∧
    emittedIndices
        ((ClipEncoder.init 10 24).steps [(1, 0), (2, 5), (3, 10)]) = [0] := by
  constructor
  · exact ((C4_add_frame_spec 10 24 [(1, 0), (2, 5), (3, 10)]).1 _
      (by decide)).1.mpr (by decide)
  · have h := (C4_add_frame_spec 10 24 [(1, 0), (2, 5), (3, 10)]).2
    have hl : (emittedIndices
        ((ClipEncoder.init 10 24).steps [(1, 0), (2, 5), (3, 10)])).length
          = 1 := by decide
    rw [hl] at h
    simpa using h

end Pipeline
